import Mathlib

/-!
Shallow embedding of the InvestIQ multi-agent scoring and decision pipeline
(`src/decision_engine.py`, `src/fundamental_analyst.py`, `src/sentiment_analyst.py`,
`src/technical_analyst.py`, `src/risk_manager.py`, `app.py`).

Python floats are modelled as exact rationals; Python's `round(x, 2)` is modelled
as round-half-to-even at two decimal places.
-/

namespace InvestIQ

/-- Python's built-in `round` to the nearest integer: round half to even. -/
def roundHalfEven (x : ℚ) : ℤ :=
  if x - (⌊x⌋ : ℚ) < 1/2 then ⌊x⌋
  else if 1/2 < x - (⌊x⌋ : ℚ) then ⌊x⌋ + 1
  else if ⌊x⌋ % 2 = 0 then ⌊x⌋ else ⌊x⌋ + 1

/-- Python's `round(x, 2)`: round to two decimal places, half to even. -/
def round2 (x : ℚ) : ℚ := (roundHalfEven (x * 100) : ℚ) / 100

theorem floor_le_roundHalfEven (x : ℚ) : ⌊x⌋ ≤ roundHalfEven x := by
  unfold roundHalfEven
  split_ifs <;> omega

theorem roundHalfEven_le_ceil (x : ℚ) : roundHalfEven x ≤ ⌈x⌉ := by
  unfold roundHalfEven
  have hfc : ⌊x⌋ ≤ ⌈x⌉ := Int.floor_le_ceil x
  split_ifs with h1 h2 h3
  · exact hfc
  · have hx : (⌊x⌋ : ℚ) < x := by linarith
    have : ⌊x⌋ < ⌈x⌉ := Int.lt_ceil.mpr hx
    omega
  · have hx : (⌊x⌋ : ℚ) < x := by linarith
    have : ⌊x⌋ < ⌈x⌉ := Int.lt_ceil.mpr hx
    omega
  · have hx : (⌊x⌋ : ℚ) < x := by linarith
    have : ⌊x⌋ < ⌈x⌉ := Int.lt_ceil.mpr hx
    omega

theorem intCast_le_round2 (a : ℤ) (x : ℚ) (h : (a : ℚ) ≤ x) : (a : ℚ) ≤ round2 x := by
  unfold round2
  have h100 : ((100 * a : ℤ) : ℚ) ≤ x * 100 := by push_cast; linarith
  have hfl : (100 * a : ℤ) ≤ ⌊x * 100⌋ := Int.le_floor.mpr h100
  have := floor_le_roundHalfEven (x * 100)
  have hle : ((100 * a : ℤ) : ℚ) ≤ (roundHalfEven (x * 100) : ℚ) := by
    exact_mod_cast le_trans hfl this
  rw [le_div_iff₀ (by norm_num : (0:ℚ) < 100)]
  push_cast at hle ⊢
  linarith

theorem round2_le_intCast (a : ℤ) (x : ℚ) (h : x ≤ (a : ℚ)) : round2 x ≤ (a : ℚ) := by
  unfold round2
  have h100 : x * 100 ≤ ((100 * a : ℤ) : ℚ) := by push_cast; linarith
  have hcl : ⌈x * 100⌉ ≤ (100 * a : ℤ) := Int.ceil_le.mpr h100
  have := roundHalfEven_le_ceil (x * 100)
  have hle : (roundHalfEven (x * 100) : ℚ) ≤ ((100 * a : ℤ) : ℚ) := by
    exact_mod_cast le_trans this hcl
  rw [div_le_iff₀ (by norm_num : (0:ℚ) < 100)]
  push_cast at hle ⊢
  linarith

theorem roundHalfEven_intCast (n : ℤ) : roundHalfEven (n : ℚ) = n := by
  unfold roundHalfEven
  rw [Int.floor_intCast]
  norm_num

theorem round2_intCast (n : ℤ) : round2 (n : ℚ) = (n : ℚ) := by
  unfold round2
  have h : ((n : ℚ) * 100) = ((n * 100 : ℤ) : ℚ) := by push_cast; ring
  rw [h, roundHalfEven_intCast]
  push_cast
  field_simp

theorem round2_natCast (n : ℕ) : round2 (n : ℚ) = (n : ℚ) := by
  exact_mod_cast round2_intCast (n : ℤ)

/-- `leadsWith n h` holds when char list `n` is an initial segment of `h`. -/
def leadsWith : List Char → List Char → Bool
  | [], _ => true
  | _ :: _, [] => false
  | a :: as, b :: bs => a == b && leadsWith as bs

/-- `hasSub h n` holds when `n` occurs contiguously inside `h`. -/
def hasSub : List Char → List Char → Bool
  | [], n => leadsWith n []
  | c :: t, n => leadsWith n (c :: t) || hasSub t n

/-- Python's `needle in hay` substring test on strings (case-sensitive). -/
def strIn (needle hay : String) : Bool := hasSub hay.data needle.data

/-! ### DecisionEngine (`src/decision_engine.py`) -/

/-- Weight table from `DecisionEngine.__init__` (`self.weights`). -/
def weights (k : String) : ℚ :=
  if k = "fundamental" then 30/100
  else if k = "sentiment" then 20/100
  else if k = "technical" then 30/100
  else if k = "risk" then 20/100
  else 0

/-- `DecisionEngine.normalize_risk_score`: the `risk_mapping` dict lookup with
default 50 (`dict.get(risk_level, 50)`). -/
def normalize_risk_score (risk_level : String) : ℚ :=
  if risk_level = "Very Low" then 100
  else if risk_level = "Low" then 80
  else if risk_level = "Moderate" then 60
  else if risk_level = "High" then 40
  else if risk_level = "Very High" then 20
  else if risk_level = "Unknown" then 50
  else 50

/-- `DecisionEngine.combine_scores`: weighted average rounded to 2 decimals. -/
def combine_scores (fundamental_score sentiment_score technical_score risk_score : ℚ) : ℚ :=
  round2 (fundamental_score * weights "fundamental"
    + sentiment_score * weights "sentiment"
    + technical_score * weights "technical"
    + risk_score * weights "risk")

/-- `DecisionEngine.resolve_conflicts`: counts biases containing the substrings
"Bullish" / "Bearish" / "Neutral" and resolves to a (recommendation, reason) pair. -/
def resolve_conflicts (biases : List String) (risk_level : String) : String × String :=
  let bullish_count := biases.countP (fun b => strIn "Bullish" b)
  let bearish_count := biases.countP (fun b => strIn "Bearish" b)
  let neutral_count := biases.countP (fun b => strIn "Neutral" b)
  if risk_level = "High" ∨ risk_level = "Very High" then
    if 2 ≤ bullish_count then
      ("Hold", "Strong fundamentals and sentiment, but elevated risk suggests caution")
    else if 2 ≤ bearish_count then
      ("Avoid", "Negative signals combined with high risk")
    else
      ("Hold", "Mixed signals with high risk - wait for better entry")
  else
    if 3 ≤ bullish_count then
      ("Buy", "Strong bullish consensus across multiple indicators")
    else if bullish_count = 2 ∧ 1 ≤ neutral_count then
      ("Buy", "Mostly positive signals with some neutral indicators")
    else if 3 ≤ bearish_count then
      ("Sell", "Strong bearish consensus")
    else if bearish_count = 2 ∧ 1 ≤ neutral_count then
      ("Sell", "Mostly negative signals")
    else if bullish_count = 2 ∧ bearish_count = 1 then
      ("Hold", "Mixed signals - bullish technical/fundamental but bearish sentiment")
    else if bearish_count = 2 ∧ bullish_count = 1 then
      ("Hold", "Mixed signals - caution advised")
    else
      ("Hold", "Neutral or mixed signals - wait for clearer direction")

/-- `DecisionEngine.determine_recommendation`: resolves conflicts first, then
filters by the combined score. -/
def determine_recommendation (combined_score : ℚ) (biases : List String)
    (risk_level : String) : String × String :=
  let cr := resolve_conflicts biases risk_level
  if 70 ≤ combined_score then
    if cr.1 = "Sell" then ("Hold", cr.2)
    else ("Buy", "Strong overall score supports bullish position")
  else if 55 ≤ combined_score then
    if cr.1 = "Sell" then ("Hold", cr.2) else cr
  else if 45 ≤ combined_score then
    ("Hold", "Moderate score suggests waiting for better entry/exit")
  else if 30 ≤ combined_score then
    if cr.1 = "Buy" then ("Hold", "Low score but some positive signals - caution advised")
    else ("Sell", "Weak overall score with negative signals")
  else
    ("Sell", "Very weak overall score")

/-- Python's `max` over a nonempty list (defaulting to 0 on `[]`, a case the
program never reaches: `calculate_confidence` is always called with 4 scores). -/
def listMax : List ℚ → ℚ
  | [] => 0
  | x :: xs => xs.foldl max x

/-- Python's `min` over a nonempty list (defaulting to 0 on `[]`). -/
def listMin : List ℚ → ℚ
  | [] => 0
  | x :: xs => xs.foldl min x

/-- `DecisionEngine.calculate_confidence`: base confidence from the number of
distinct bias labels (`len(set(biases))`), adjusted by score spread, clamped to
[30, 95] and rounded. -/
def calculate_confidence (scores : List ℚ) (biases : List String) : ℚ :=
  let c0 : ℚ :=
    if biases.dedup.length = 1 then 85
    else if biases.dedup.length = 2 then 65
    else 45
  let score_range := listMax scores - listMin scores
  let c1 : ℚ :=
    if score_range < 20 then c0 + 10
    else if 40 < score_range then c0 - 10
    else c0
  round2 (max 30 (min 95 c1))

/-! ### Claim C3 -/

/-- C3: `combine_scores(f, s, t, r)` equals the convex combination
0.30·f + 0.20·s + 0.30·t + 0.20·r rounded to 2 decimals; the four weights sum
to 1; `combine_scores(100,100,100,100) = 100` and `combine_scores(0,0,0,0) = 0`;
for inputs each in [0,100] the result lies in [0,100]. -/
theorem C3_combine_scores (f s t r : ℚ) :
    combine_scores f s t r = round2 (30/100 * f + 20/100 * s + 30/100 * t + 20/100 * r)
    ∧ weights "fundamental" + weights "sentiment" + weights "technical" + weights "risk" = 1
    ∧ combine_scores 100 100 100 100 = 100
    ∧ combine_scores 0 0 0 0 = 0
    ∧ (0 ≤ f → f ≤ 100 → 0 ≤ s → s ≤ 100 → 0 ≤ t → t ≤ 100 → 0 ≤ r → r ≤ 100 →
        0 ≤ combine_scores f s t r ∧ combine_scores f s t r ≤ 100) := by
  have hw : weights "fundamental" = 30/100 ∧ weights "sentiment" = 20/100
      ∧ weights "technical" = 30/100 ∧ weights "risk" = 20/100 := by
    refine ⟨?_, ?_, ?_, ?_⟩ <;> simp [weights]
  have heq : combine_scores f s t r
      = round2 (30/100 * f + 20/100 * s + 30/100 * t + 20/100 * r) := by
    unfold combine_scores
    rw [hw.1, hw.2.1, hw.2.2.1, hw.2.2.2]
    ring_nf
  refine ⟨heq, by rw [hw.1, hw.2.1, hw.2.2.1, hw.2.2.2]; norm_num, ?_, ?_, ?_⟩
  · show combine_scores 100 100 100 100 = 100
    unfold combine_scores
    rw [hw.1, hw.2.1, hw.2.2.1, hw.2.2.2]
    norm_num [round2, roundHalfEven]
  · show combine_scores 0 0 0 0 = 0
    unfold combine_scores
    rw [hw.1, hw.2.1, hw.2.2.1, hw.2.2.2]
    norm_num [round2, roundHalfEven]
  · intro hf0 hf1 hs0 hs1 ht0 ht1 hr0 hr1
    rw [heq]
    constructor
    · have := intCast_le_round2 0 (30/100 * f + 20/100 * s + 30/100 * t + 20/100 * r)
        (by push_cast; linarith)
      exact_mod_cast this
    · have := round2_le_intCast 100 (30/100 * f + 20/100 * s + 30/100 * t + 20/100 * r)
        (by push_cast; linarith)
      exact_mod_cast this

/-- C3 witness: the bounds at the concrete input (50, 50, 50, 50). -/
theorem C3_combine_scores_witness :
    (0:ℚ) ≤ 50 ∧ (0:ℚ) ≤ combine_scores 50 50 50 50 ∧ combine_scores 50 50 50 50 ≤ 100 := by
  have h := (C3_combine_scores 50 50 50 50).2.2.2.2
    (by norm_num) (by norm_num) (by norm_num) (by norm_num)
    (by norm_num) (by norm_num) (by norm_num) (by norm_num)
  exact ⟨by norm_num, h.1, h.2⟩

/-! ### Claim C1 -/

/-- C1: `determine_recommendation` first resolves conflicts, then filters by the
combined score: score ≥ 70 gives Buy unless the conflict recommendation is Sell
(then Hold); 55 ≤ score < 70 returns the conflict recommendation unless Sell
(then Hold); 45 ≤ score < 55 gives Hold; 30 ≤ score < 45 gives Sell unless the
conflict recommendation is Buy (then Hold); score < 30 gives Sell. At score 72,
three Bullish biases give Buy and three Bearish biases give Hold. -/
theorem C1_determine_recommendation (cs : ℚ) (biases : List String) (rl : String) :
    (70 ≤ cs → (determine_recommendation cs biases rl).1 =
        (if (resolve_conflicts biases rl).1 = "Sell" then "Hold" else "Buy"))
    ∧ (55 ≤ cs → cs < 70 → (determine_recommendation cs biases rl).1 =
        (if (resolve_conflicts biases rl).1 = "Sell" then "Hold"
         else (resolve_conflicts biases rl).1))
    ∧ (45 ≤ cs → cs < 55 → (determine_recommendation cs biases rl).1 = "Hold")
    ∧ (30 ≤ cs → cs < 45 → (determine_recommendation cs biases rl).1 =
        (if (resolve_conflicts biases rl).1 = "Buy" then "Hold" else "Sell"))
    ∧ (cs < 30 → (determine_recommendation cs biases rl).1 = "Sell")
    ∧ (determine_recommendation 72 ["Bullish", "Bullish", "Bullish"] "Low").1 = "Buy"
    ∧ (determine_recommendation 72 ["Bearish", "Bearish", "Bearish"] "Low").1 = "Hold" := by
  refine ⟨?_, ?_, ?_, ?_, ?_, by decide, by decide⟩
  · intro h70
    unfold determine_recommendation
    dsimp only
    split_ifs <;> first | rfl | linarith
  · intro h55 h70
    unfold determine_recommendation
    dsimp only
    split_ifs <;> first | rfl | linarith
  · intro h45 h55
    unfold determine_recommendation
    dsimp only
    split_ifs <;> first | rfl | linarith
  · intro h30 h45
    unfold determine_recommendation
    dsimp only
    split_ifs <;> first | rfl | linarith
  · intro h30
    unfold determine_recommendation
    dsimp only
    split_ifs <;> first | rfl | linarith

/-- C1 witness: the score ≥ 70 branch applied at the concrete input
(72, three Bullish biases, risk "Low"). -/
theorem C1_determine_recommendation_witness :
    (70:ℚ) ≤ 72 ∧ (determine_recommendation 72 ["Bullish", "Bullish", "Bullish"] "Low").1 =
      (if (resolve_conflicts ["Bullish", "Bullish", "Bullish"] "Low").1 = "Sell"
       then "Hold" else "Buy") :=
  ⟨by norm_num,
    (C1_determine_recommendation 72 ["Bullish", "Bullish", "Bullish"] "Low").1 (by norm_num)⟩

/-! ### Claim C2 -/

/-- C2: `resolve_conflicts` counts the bias labels containing "Bullish",
"Bearish", "Neutral" as case-sensitive substrings; under High/Very High risk it
returns Hold when at least 2 are bullish, Avoid when at least 2 are bearish, and
Hold otherwise; under any other risk level it returns Buy when at least 3 are
bullish or exactly 2 bullish with at least 1 neutral, Sell when at least 3 are
bearish or exactly 2 bearish with at least 1 neutral, and Hold in every
remaining case; with the three quoted concrete examples. -/
theorem C2_resolve_conflicts (biases : List String) (rl : String) :
    ((resolve_conflicts biases rl).1 =
      (if rl = "High" ∨ rl = "Very High" then
        if 2 ≤ biases.countP (fun b => strIn "Bullish" b) then "Hold"
        else if 2 ≤ biases.countP (fun b => strIn "Bearish" b) then "Avoid"
        else "Hold"
      else
        if 3 ≤ biases.countP (fun b => strIn "Bullish" b)
            ∨ (biases.countP (fun b => strIn "Bullish" b) = 2
               ∧ 1 ≤ biases.countP (fun b => strIn "Neutral" b)) then "Buy"
        else if 3 ≤ biases.countP (fun b => strIn "Bearish" b)
            ∨ (biases.countP (fun b => strIn "Bearish" b) = 2
               ∧ 1 ≤ biases.countP (fun b => strIn "Neutral" b)) then "Sell"
        else "Hold"))
    ∧ (resolve_conflicts ["Bullish", "Bullish", "Bullish"] "Low").1 = "Buy"
    ∧ (resolve_conflicts ["Bearish", "Bearish", "Neutral"] "Moderate").1 = "Sell"
    ∧ (resolve_conflicts ["Bullish", "Bullish", "Bearish"] "High").1 = "Hold" := by
  refine ⟨?_, by decide, by decide, by decide⟩
  unfold resolve_conflicts
  dsimp only
  split_ifs <;> first | rfl | omega

/-! ### Claim C4 -/

/-- C4: `calculate_confidence` starts from 85 when all biases are identical
(one distinct value), 65 when there are exactly two distinct values, 45
otherwise; adds 10 when the score spread is < 20 and subtracts 10 when the
spread is > 40; the result is clamped to [30, 95]; identical biases with spread
< 20 give 95, and three distinct biases with spread > 40 give 35. -/
theorem C4_calculate_confidence (scores : List ℚ) (biases : List String)
    (hs : scores ≠ []) (hb : biases ≠ []) :
    calculate_confidence scores biases =
      max 30 (min 95 ((if biases.dedup.length = 1 then (85:ℚ)
          else if biases.dedup.length = 2 then 65 else 45)
        + (if listMax scores - listMin scores < 20 then 10
           else if 40 < listMax scores - listMin scores then -10 else 0)))
    ∧ 30 ≤ calculate_confidence scores biases
    ∧ calculate_confidence scores biases ≤ 95
    ∧ (biases.dedup.length = 1 → listMax scores - listMin scores < 20 →
        calculate_confidence scores biases = 95)
    ∧ (biases.dedup.length = 3 → 40 < listMax scores - listMin scores →
        calculate_confidence scores biases = 35) := by
  have heq : calculate_confidence scores biases =
      max 30 (min 95 ((if biases.dedup.length = 1 then (85:ℚ)
          else if biases.dedup.length = 2 then 65 else 45)
        + (if listMax scores - listMin scores < 20 then 10
           else if 40 < listMax scores - listMin scores then -10 else 0))) := by
    unfold calculate_confidence
    dsimp only
    split_ifs <;> norm_num [max_def, min_def] <;>
      first
      | exact_mod_cast round2_natCast 95
      | exact_mod_cast round2_natCast 85
      | exact_mod_cast round2_natCast 75
      | exact_mod_cast round2_natCast 65
      | exact_mod_cast round2_natCast 55
      | exact_mod_cast round2_natCast 45
      | exact_mod_cast round2_natCast 35
  refine ⟨heq, ?_, ?_, ?_, ?_⟩
  · rw [heq]; exact le_max_left _ _
  · rw [heq]
    exact max_le (by norm_num) (min_le_left _ _)
  · intro h1 h2
    rw [heq, if_pos h1, if_pos h2]
    norm_num
  · intro h3 h40
    have h1 : ¬ biases.dedup.length = 1 := by omega
    have h2 : ¬ biases.dedup.length = 2 := by omega
    have hnlt : ¬ listMax scores - listMin scores < 20 := by linarith
    rw [heq, if_neg h1, if_neg h2, if_neg hnlt, if_pos h40]
    norm_num

/-- C4 witness: identical biases with zero score spread give confidence 95, at
the concrete input scores = [50, 50, 50, 50], biases = three times "Bullish". -/
theorem C4_calculate_confidence_witness :
    ([(50:ℚ), 50, 50, 50] ≠ []) ∧ (["Bullish", "Bullish", "Bullish"] ≠ ([] : List String))
    ∧ calculate_confidence [50, 50, 50, 50] ["Bullish", "Bullish", "Bullish"] = 95 :=
  ⟨by decide, by decide,
    (C4_calculate_confidence [50, 50, 50, 50] ["Bullish", "Bullish", "Bullish"]
      (by decide) (by decide)).2.2.2.1 (by decide) (by norm_num [listMax, listMin])⟩

/-! ### FundamentalAnalyst (`src/fundamental_analyst.py`) -/

/-- Weight table from `FundamentalAnalyst.__init__` (`self.weights`). -/
def fweights (k : String) : ℚ :=
  if k = "revenue_growth" then 25/100
  else if k = "profit_margin" then 25/100
  else if k = "pe_ratio" then 20/100
  else if k = "debt_to_equity" then 15/100
  else if k = "roe" then 15/100
  else 0

/-- `FundamentalAnalyst.normalize_score`: per-metric piecewise normalization to
the 0-100 scale, defaulting to the neutral 50 for unrecognized metric types. -/
def normalize_score (value : ℚ) (metric_type : String) : ℚ :=
  if metric_type = "revenue_growth" then
    if 20 < value then 100
    else if 10 < value then 70 + (value - 10) * 3
    else if 0 < value then 50 + value * 2
    else max 0 (50 + value * 2)
  else if metric_type = "profit_margin" then
    if 20 < value then 100
    else if 10 < value then 70 + (value - 10) * 3
    else if 5 < value then 50 + (value - 5) * 4
    else max 0 (value * 10)
  else if metric_type = "pe_ratio" then
    if 15 ≤ value ∧ value ≤ 25 then 100
    else if (10 ≤ value ∧ value < 15) ∨ (25 < value ∧ value ≤ 30) then 80
    else if (5 ≤ value ∧ value < 10) ∨ (30 < value ∧ value ≤ 40) then 60
    else if value < 5 ∨ (40 < value ∧ value ≤ 60) then 40
    else 20
  else if metric_type = "debt_to_equity" then
    if value < 3/10 then 100
    else if value < 5/10 then 85
    else if value < 1 then 70
    else if value < 2 then 50
    else max 0 (100 - value * 20)
  else if metric_type = "roe" then
    if 20 < value then 100
    else if 15 < value then 80 + (value - 15) * 4
    else if 10 < value then 60 + (value - 10) * 4
    else max 0 (value * 6)
  else 50

/-- The `metrics` dict passed to `calculate_fundamental_score`: each of the five
weighted metrics may be absent (keys outside the weight table are skipped by the
loop and cannot affect the score, so they are not modelled). -/
structure Metrics where
  revenue_growth : Option ℚ
  profit_margin : Option ℚ
  pe_ratio : Option ℚ
  debt_to_equity : Option ℚ
  roe : Option ℚ

/-- One iteration of the loop in `calculate_fundamental_score`: an absent metric
contributes nothing, a present one contributes its normalized score times its
weight. -/
def metricContribution (v : Option ℚ) (k : String) : ℚ :=
  match v with
  | none => 0
  | some x => normalize_score x k * fweights k

/-- `FundamentalAnalyst.calculate_fundamental_score`: weighted sum of the
normalized metric scores, rounded to 2 decimals. (The `if not metrics` guard
returns 0, which coincides with the rounded empty sum.) -/
def calculate_fundamental_score (m : Metrics) : ℚ :=
  round2 (metricContribution m.revenue_growth "revenue_growth"
    + metricContribution m.profit_margin "profit_margin"
    + metricContribution m.pe_ratio "pe_ratio"
    + metricContribution m.debt_to_equity "debt_to_equity"
    + metricContribution m.roe "roe")

/-! ### Claim C10 -/

/-- C10: the revenue-growth normalization curve equals 100 for v ≥ 20,
70 + 3(v − 10) for 10 ≤ v < 20, 50 + 2v for 0 ≤ v < 10, and max(0, 50 + 2v)
for v < 0; in particular 25 ↦ 100, 15 ↦ 85, 5 ↦ 60 and −10 ↦ 30. -/
theorem C10_normalize_revenue_growth (v : ℚ) :
    (20 ≤ v → normalize_score v "revenue_growth" = 100)
    ∧ (10 ≤ v → v < 20 → normalize_score v "revenue_growth" = 70 + (v - 10) * 3)
    ∧ (0 ≤ v → v < 10 → normalize_score v "revenue_growth" = 50 + v * 2)
    ∧ (v < 0 → normalize_score v "revenue_growth" = max 0 (50 + v * 2))
    ∧ normalize_score 25 "revenue_growth" = 100
    ∧ normalize_score 15 "revenue_growth" = 85
    ∧ normalize_score 5 "revenue_growth" = 60
    ∧ normalize_score (-10) "revenue_growth" = 30 := by
  have hrw : ∀ w : ℚ, normalize_score w "revenue_growth" =
      (if 20 < w then 100
       else if 10 < w then 70 + (w - 10) * 3
       else if 0 < w then 50 + w * 2
       else max 0 (50 + w * 2)) := by
    intro w
    simp [normalize_score]
  refine ⟨?_, ?_, ?_, ?_, ?_, ?_, ?_, ?_⟩
  · intro h20
    rw [hrw]
    split_ifs <;> first | rfl | linarith
  · intro h10 h20
    rw [hrw]
    split_ifs <;> first | rfl | linarith
  · intro h0 h10
    rw [hrw]
    split_ifs with h1 h2 h3
    · linarith
    · linarith
    · rfl
    · have hv : v = 0 := le_antisymm (not_lt.mp h3) h0
      rw [hv]
      norm_num
  · intro h0
    rw [hrw]
    split_ifs <;> first | rfl | linarith
  · rw [hrw]; norm_num
  · rw [hrw]; norm_num
  · rw [hrw]; norm_num
  · rw [hrw]
    norm_num [max_def]

/-- C10 witness: the 10 ≤ v < 20 segment applied at the concrete input v = 15. -/
theorem C10_normalize_revenue_growth_witness :
    (10:ℚ) ≤ 15 ∧ (15:ℚ) < 20
    ∧ normalize_score 15 "revenue_growth" = 70 + (15 - 10) * 3 :=
  ⟨by norm_num, by norm_num,
    (C10_normalize_revenue_growth 15).2.1 (by norm_num) (by norm_num)⟩

/-! ### SentimentAnalyst (`src/sentiment_analyst.py`) -/

/-- `SentimentAnalyst.calculate_sentiment_score`: maps mean polarity from
[-1, 1] to [0, 100] via 50 + 50·polarity, rounded and clamped. -/
def calculate_sentiment_score (average_sentiment : ℚ) : ℚ :=
  max 0 (min 100 (round2 (50 + average_sentiment * 50)))

/-! ### TechnicalAnalyst (`src/technical_analyst.py`) -/

/-- The `indicators` dict assembled in `TechnicalAnalyst.analyze` and consumed
by `calculate_technical_score`; `analyze` always sets all four keys. -/
structure Indicators where
  rsi : ℚ
  trend : String
  macd_histogram : ℚ
  price_position : ℚ

/-- `TechnicalAnalyst.calculate_technical_score`: starts at the neutral 50,
accumulates the RSI, trend, MACD-histogram and price-position terms, then
rounds and clamps to [0, 100]. -/
def calculate_technical_score (ind : Indicators) : ℚ :=
  let s1 : ℚ :=
    if 30 ≤ ind.rsi ∧ ind.rsi ≤ 70 then 50 + (ind.rsi - 50) * (3/10)
    else if 70 < ind.rsi then 50 - (ind.rsi - 70) * (5/10)
    else 50 + (30 - ind.rsi) * (5/10)
  let s2 : ℚ :=
    if ind.trend = "Strong Uptrend" then s1 + 20
    else if ind.trend = "Weak Uptrend" then s1 + 10
    else if ind.trend = "Strong Downtrend" then s1 - 20
    else if ind.trend = "Weak Downtrend" then s1 - 10
    else s1
  let s3 : ℚ :=
    if 0 < ind.macd_histogram then s2 + min 10 (ind.macd_histogram * 100)
    else s2 + max (-10) (ind.macd_histogram * 100)
  let s4 : ℚ := s3 + (ind.price_position - 5/10) * 20
  max 0 (min 100 (round2 s4))

/-! ### Claim C5 -/

theorem fweights_nonneg (k : String) : 0 ≤ fweights k := by
  unfold fweights
  split_ifs <;> norm_num

theorem normalize_score_bounds (v : ℚ) (k : String) :
    0 ≤ normalize_score v k ∧ normalize_score v k ≤ 100 := by
  unfold normalize_score
  split_ifs <;>
    refine ⟨?_, ?_⟩ <;>
    first
    | linarith
    | (rw [le_max_iff]; left; norm_num)
    | (rw [max_le_iff]; constructor <;> linarith)

theorem metricContribution_bounds (v : Option ℚ) (k : String) :
    0 ≤ metricContribution v k ∧ metricContribution v k ≤ fweights k * 100 := by
  cases v with
  | none =>
      refine ⟨le_refl 0, ?_⟩
      have := fweights_nonneg k
      simp only [metricContribution]
      nlinarith
  | some x =>
      have hb := normalize_score_bounds x k
      have hw := fweights_nonneg k
      simp only [metricContribution]
      constructor
      · exact mul_nonneg hb.1 hw
      · calc normalize_score x k * fweights k ≤ 100 * fweights k :=
              mul_le_mul_of_nonneg_right hb.2 hw
          _ = fweights k * 100 := by ring

/-- C5: every agent score lies in [0, 100]: the fundamental score for every
combination of present/absent metric values, the sentiment score for every mean
polarity, and the technical composite score for every indicator values; each
per-metric normalized score is in [0, 100] and the five metric weights sum
to 1. -/
theorem C5_agent_scores_in_range :
    (∀ m : Metrics, 0 ≤ calculate_fundamental_score m
        ∧ calculate_fundamental_score m ≤ 100)
    ∧ fweights "revenue_growth" + fweights "profit_margin" + fweights "pe_ratio"
        + fweights "debt_to_equity" + fweights "roe" = 1
    ∧ (∀ v k, 0 ≤ normalize_score v k ∧ normalize_score v k ≤ 100)
    ∧ (∀ p : ℚ, 0 ≤ calculate_sentiment_score p ∧ calculate_sentiment_score p ≤ 100)
    ∧ (∀ ind : Indicators, 0 ≤ calculate_technical_score ind
        ∧ calculate_technical_score ind ≤ 100) := by
  refine ⟨?_, by simp only [fweights, String.reduceEq, reduceIte]; norm_num,
    normalize_score_bounds, ?_, ?_⟩
  · intro m
    have h1 := metricContribution_bounds m.revenue_growth "revenue_growth"
    have h2 := metricContribution_bounds m.profit_margin "profit_margin"
    have h3 := metricContribution_bounds m.pe_ratio "pe_ratio"
    have h4 := metricContribution_bounds m.debt_to_equity "debt_to_equity"
    have h5 := metricContribution_bounds m.roe "roe"
    have hw1 : fweights "revenue_growth" = 25/100 := by simp [fweights]
    have hw2 : fweights "profit_margin" = 25/100 := by simp [fweights]
    have hw3 : fweights "pe_ratio" = 20/100 := by simp [fweights]
    have hw4 : fweights "debt_to_equity" = 15/100 := by simp [fweights]
    have hw5 : fweights "roe" = 15/100 := by simp [fweights]
    rw [hw1] at h1; rw [hw2] at h2; rw [hw3] at h3; rw [hw4] at h4; rw [hw5] at h5
    unfold calculate_fundamental_score
    constructor
    · have h0 := intCast_le_round2 0
        (metricContribution m.revenue_growth "revenue_growth"
          + metricContribution m.profit_margin "profit_margin"
          + metricContribution m.pe_ratio "pe_ratio"
          + metricContribution m.debt_to_equity "debt_to_equity"
          + metricContribution m.roe "roe") (by push_cast; linarith)
      exact_mod_cast h0
    · have h0 := round2_le_intCast 100
        (metricContribution m.revenue_growth "revenue_growth"
          + metricContribution m.profit_margin "profit_margin"
          + metricContribution m.pe_ratio "pe_ratio"
          + metricContribution m.debt_to_equity "debt_to_equity"
          + metricContribution m.roe "roe") (by push_cast; linarith)
      exact_mod_cast h0
  · intro p
    unfold calculate_sentiment_score
    exact ⟨le_max_left _ _, max_le (by norm_num) (min_le_left _ _)⟩
  · intro ind
    unfold calculate_technical_score
    exact ⟨le_max_left _ _, max_le (by norm_num) (min_le_left _ _)⟩

/-! ### Claim C6 -/

/-- C6: evaluation of the RSI term of `calculate_technical_score` at the three
inputs that differ only in RSI (trend "Unknown", zero MACD histogram, centered
price position). RSI 50 (neutral) gives 50 and RSI 90 (overbought) gives the
penalized 40, but RSI 10 (oversold) gives 60: the oversold branch
`score += (30 - rsi) * 0.5` raises the score above neutral instead of lowering
it, contradicting both the claim and the code's own "Penalize oversold"
comment. -/
theorem C6_rsi_oversold_raises_score :
    calculate_technical_score ⟨50, "Unknown", 0, 5/10⟩ = 50
    ∧ calculate_technical_score ⟨90, "Unknown", 0, 5/10⟩ = 40
    ∧ calculate_technical_score ⟨10, "Unknown", 0, 5/10⟩ = 60
    ∧ 50 < calculate_technical_score ⟨10, "Unknown", 0, 5/10⟩ := by
  have e50 : round2 (50:ℚ) = 50 := by exact_mod_cast round2_natCast 50
  have e40 : round2 (40:ℚ) = 40 := by exact_mod_cast round2_natCast 40
  have e60 : round2 (60:ℚ) = 60 := by exact_mod_cast round2_natCast 60
  have h50 : calculate_technical_score ⟨50, "Unknown", 0, 5/10⟩ = 50 := by
    unfold calculate_technical_score
    simp only [String.reduceEq, reduceIte]
    norm_num [e50, max_def, min_def]
  have h90 : calculate_technical_score ⟨90, "Unknown", 0, 5/10⟩ = 40 := by
    unfold calculate_technical_score
    simp only [String.reduceEq, reduceIte]
    norm_num [e40, max_def, min_def]
  have h10 : calculate_technical_score ⟨10, "Unknown", 0, 5/10⟩ = 60 := by
    unfold calculate_technical_score
    simp only [String.reduceEq, reduceIte]
    norm_num [e60, max_def, min_def]
  exact ⟨h50, h90, h10, by rw [h10]; norm_num⟩

/-! ### RiskManager (`src/risk_manager.py`) -/

/-- The composite risk score accumulated in `RiskManager.assess_risk_level`:
volatility band (40/30/20/10) plus absolute-drawdown band (40/30/20/10) plus
Sharpe band (20/15/10/5). -/
def riskScoreOf (volatility max_drawdown sharpe_ratio : ℚ) : ℚ :=
  (if 40 < volatility then 40
   else if 30 < volatility then 30
   else if 20 < volatility then 20
   else 10)
  + (if 30 < |max_drawdown| then 40
     else if 20 < |max_drawdown| then 30
     else if 10 < |max_drawdown| then 20
     else 10)
  + (if sharpe_ratio < 0 then 20
     else if sharpe_ratio < 5/10 then 15
     else if sharpe_ratio < 1 then 10
     else 5)

/-- `RiskManager.assess_risk_level`: classifies the composite risk score into a
risk-level label. -/
def assess_risk_level (volatility max_drawdown sharpe_ratio : ℚ) : String :=
  if 70 ≤ riskScoreOf volatility max_drawdown sharpe_ratio then "Very High"
  else if 55 ≤ riskScoreOf volatility max_drawdown sharpe_ratio then "High"
  else if 40 ≤ riskScoreOf volatility max_drawdown sharpe_ratio then "Moderate"
  else if 25 ≤ riskScoreOf volatility max_drawdown sharpe_ratio then "Low"
  else "Very Low"

/-! ### Claim C8 -/

/-- C8: the composite risk score is always at least 25 (volatility band ≥ 10,
drawdown band ≥ 10, Sharpe band ≥ 5), so `assess_risk_level` never returns
"Very Low" — its result is always one of Low / Moderate / High / Very High —
and consequently `normalize_risk_score` applied to it never yields the
Very Low entry 100. -/
theorem C8_no_very_low (v d s : ℚ) :
    25 ≤ riskScoreOf v d s
    ∧ assess_risk_level v d s ≠ "Very Low"
    ∧ (assess_risk_level v d s = "Low" ∨ assess_risk_level v d s = "Moderate"
       ∨ assess_risk_level v d s = "High" ∨ assess_risk_level v d s = "Very High")
    ∧ normalize_risk_score (assess_risk_level v d s) ≠ 100 := by
  have hcases : assess_risk_level v d s = "Low" ∨ assess_risk_level v d s = "Moderate"
      ∨ assess_risk_level v d s = "High" ∨ assess_risk_level v d s = "Very High" := by
    unfold assess_risk_level
    split_ifs with h1 h2 h3 h4
    · right; right; right; rfl
    · right; right; left; rfl
    · right; left; rfl
    · left; rfl
    · exfalso
      have h25 : 25 ≤ riskScoreOf v d s := by
        unfold riskScoreOf
        split_ifs <;> norm_num
      linarith
  have h25 : 25 ≤ riskScoreOf v d s := by
    unfold riskScoreOf
    split_ifs <;> norm_num
  refine ⟨h25, ?_, hcases, ?_⟩
  · rcases hcases with h | h | h | h <;> rw [h] <;> decide
  · rcases hcases with h | h | h | h <;> rw [h] <;>
      simp only [normalize_risk_score, String.reduceEq, reduceIte] <;> norm_num

/-! ### Claim C9 -/

/-- The neutral default result returned by `TechnicalAnalyst.analyze` when the
fetched price data is missing or empty (the `indicators` field of the Python
dict is the empty dict and is not modelled). -/
structure TAResult where
  score : ℚ
  bias : String
  insights : List String
deriving DecidableEq

/-- The default result returned by `RiskManager.analyze` when the fetched price
data is missing or empty (the empty `metrics` field is not modelled). -/
structure RiskResult where
  risk_level : String
  volatility : ℚ
  max_drawdown : ℚ
  recommendations : List String
deriving DecidableEq

/-- `TechnicalAnalyst.analyze` restricted to its guard on fetched data: `None`
or an empty price history short-circuits to the neutral default; any other
input runs the remainder of the method, abstracted as `compute` (an `Except`
so that an exception raised there is observable). -/
def technicalAnalyze (df : Option (List ℚ))
    (compute : List ℚ → Except String TAResult) : Except String TAResult :=
  match df with
  | none => .ok ⟨50, "Unknown", ["Unable to fetch price data"]⟩
  | some prices =>
      if prices = [] then .ok ⟨50, "Unknown", ["Unable to fetch price data"]⟩
      else compute prices

/-- `RiskManager.analyze` restricted to its guard on fetched data, as in
`technicalAnalyze`. -/
def riskAnalyze (df : Option (List ℚ))
    (compute : List ℚ → Except String RiskResult) : Except String RiskResult :=
  match df with
  | none => .ok ⟨"Unknown", 0, 0, ["Unable to fetch price data"]⟩
  | some prices =>
      if prices = [] then .ok ⟨"Unknown", 0, 0, ["Unable to fetch price data"]⟩
      else compute prices

/-- C9: when the price history is missing or empty, `TechnicalAnalyst.analyze`
returns the neutral default (score 50, bias "Unknown") and `RiskManager.analyze`
returns risk level "Unknown" with zeroed metrics, and neither raises an
exception, whatever the rest of either method would do on real data. -/
theorem C9_no_data_defaults (df : Option (List ℚ))
    (ct : List ℚ → Except String TAResult) (cr : List ℚ → Except String RiskResult)
    (h : df = none ∨ df = some []) :
    technicalAnalyze df ct = .ok ⟨50, "Unknown", ["Unable to fetch price data"]⟩
    ∧ riskAnalyze df cr = .ok ⟨"Unknown", 0, 0, ["Unable to fetch price data"]⟩ := by
  rcases h with h | h <;> subst h <;> exact ⟨rfl, rfl⟩

/-- C9 witness: the empty price history, with continuations that would raise. -/
theorem C9_no_data_defaults_witness :
    (some ([] : List ℚ) = none ∨ some ([] : List ℚ) = some [])
    ∧ technicalAnalyze (some []) (fun _ => .error "boom")
        = .ok ⟨50, "Unknown", ["Unable to fetch price data"]⟩
    ∧ riskAnalyze (some []) (fun _ => .error "boom")
        = .ok ⟨"Unknown", 0, 0, ["Unable to fetch price data"]⟩ := by
  have h := C9_no_data_defaults (some []) (fun _ => .error "boom")
    (fun _ => .error "boom") (Or.inr rfl)
  exact ⟨Or.inr rfl, h.1, h.2⟩

/-! ### make_json_serializable (`app.py`) -/

/-- A Python float value as it matters to `make_json_serializable`: finite, or
one of the non-finite values NaN / +inf / -inf. -/
inductive PyFloatVal where
  | finite (q : ℚ)
  | nan
  | posInf
  | negInf
deriving DecidableEq

mutual
/-- A Python object inside a Decision payload, as inspected by
`make_json_serializable`. `float` is a built-in Python float (such as the
`float('inf')` returned by `RiskManager.calculate_risk_reward_ratio`), `npFloat`
a numpy floating scalar, `npInt` a numpy integer, and `series` a pandas Series
of floats. DataFrames and ndarrays do not occur in Decision payloads and are
not modelled. -/
inductive PyObj where
  | none
  | bool (b : Bool)
  | int (n : ℤ)
  | npInt (n : ℤ)
  | float (f : PyFloatVal)
  | npFloat (f : PyFloatVal)
  | str (s : String)
  | series (xs : List PyFloatVal)
  | list (xs : PyObjList)
  | dict (kvs : PyDict)

/-- A Python list of objects. -/
inductive PyObjList where
  | nil
  | cons (head : PyObj) (tail : PyObjList)

/-- A Python dict with string keys, in insertion order. -/
inductive PyDict where
  | nil
  | cons (key : String) (value : PyObj) (tail : PyDict)
end

/-- One entry of a pandas Series after `.where(pd.notna(obj), None).tolist()`:
NaN (and None) becomes None, every other float — infinities included — is kept
as a built-in float. -/
def seriesEntry (f : PyFloatVal) : PyObj :=
  match f with
  | .nan => .none
  | f => .float f

/-- `seriesEntry` mapped over a Series, producing list elements. -/
def serializeSeries : List PyFloatVal → PyObjList
  | [] => .nil
  | f :: fs => .cons (seriesEntry f) (serializeSeries fs)

mutual
/-- `make_json_serializable` from `app.py`. Branch by branch: `None` stays
`None`; a Series is NaN-masked and listed; a numpy integer becomes `int`; a
numpy float maps to `None` when `np.isnan` or `np.isinf` holds and to a
built-in float otherwise; dicts and lists recurse; everything else reaches the
`pd.isna` fallback, which catches only a built-in float NaN (`pd.isna` is
False on ±inf), and is otherwise returned as-is. -/
def make_json_serializable : PyObj → PyObj
  | .none => .none
  | .series xs => .list (serializeSeries xs)
  | .npInt n => .int n
  | .npFloat f =>
      match f with
      | .finite q => .float (.finite q)
      | _ => .none
  | .dict kvs => .dict (serializeDict kvs)
  | .list xs => .list (serializeList xs)
  | .float f =>
      match f with
      | .nan => .none
      | f => .float f
  | .bool b => .bool b
  | .int n => .int n
  | .str s => .str s

/-- `make_json_serializable` mapped over a Python list. -/
def serializeList : PyObjList → PyObjList
  | .nil => .nil
  | .cons x xs => .cons (make_json_serializable x) (serializeList xs)

/-- `make_json_serializable` mapped over the values of a dict. -/
def serializeDict : PyDict → PyDict
  | .nil => .nil
  | .cons k v kvs => .cons k (make_json_serializable v) (serializeDict kvs)
end

/-- `nonFinite f` holds when `f` is NaN or an infinity. -/
def nonFinite (f : PyFloatVal) : Bool :=
  match f with
  | .finite _ => false
  | _ => true

mutual
/-- `containsNonFinite o` holds when a NaN or infinite float value (built-in or
numpy) occurs anywhere in the nested structure of `o`. -/
def containsNonFinite : PyObj → Bool
  | .float f => nonFinite f
  | .npFloat f => nonFinite f
  | .series xs => xs.any nonFinite
  | .list xs => listContainsNonFinite xs
  | .dict kvs => dictContainsNonFinite kvs
  | _ => false

/-- `containsNonFinite` over a Python list. -/
def listContainsNonFinite : PyObjList → Bool
  | .nil => false
  | .cons x xs => containsNonFinite x || listContainsNonFinite xs

/-- `containsNonFinite` over the values of a dict. -/
def dictContainsNonFinite : PyDict → Bool
  | .nil => false
  | .cons _ v kvs => containsNonFinite v || dictContainsNonFinite kvs
end

/-! ### Claim C7 -/

/-- C7: an infinite built-in Python float — exactly what
`RiskManager.calculate_risk_reward_ratio` returns as `float('inf')` when there
are no losing days — survives `make_json_serializable` unchanged instead of
being replaced by null, so the serialized Decision payload can still contain a
non-finite numeric value. A numpy infinity and a built-in NaN are nulled, so
the claim fails only on built-in infinities. -/
theorem C7_infinity_survives_serialization :
    make_json_serializable (.dict (.cons "risk_reward_ratio" (.float .posInf) .nil))
      = .dict (.cons "risk_reward_ratio" (.float .posInf) .nil)
    ∧ containsNonFinite
        (make_json_serializable (.dict (.cons "risk_reward_ratio" (.float .posInf) .nil)))
        = true
    ∧ make_json_serializable (.npFloat .posInf) = .none
    ∧ make_json_serializable (.float .nan) = .none
    ∧ make_json_serializable (.npFloat .nan) = .none := by
  refine ⟨rfl, rfl, rfl, rfl, rfl⟩

end InvestIQ
